import Mathlib

/-
Verification of the round adjudication engine of the Rock-Paper-Scissors-Plus
AI judge (src/main.py), shallowly embedded in Lean 4.  The deterministic
fallback judge (mock_judge_response), the round driver (play_round) and the
match aggregation of the main loop are translated directly from the source.
-/

namespace RPS

/-- Apostrophe character, built from its code point so the source file stays
free of quote characters inside string literals. -/
def apostr : String := String.singleton (Char.ofNat 39)

/-- Python str.lower, restricted to the ASCII range that all keywords use. -/
def lowerStr (s : List Char) : List Char := s.map Char.toLower

/-- Boolean test that the first list is an initial segment of the second,
modelling the anchored part of the Python substring operator. -/
def strStartsWith : List Char → List Char → Bool
  | [], _ => true
  | _ :: _, [] => false
  | a :: as, b :: bs => a == b && strStartsWith as bs

/-- Boolean substring containment, modelling the Python expression
k in raw_l over character lists. -/
def containsSub (needle : List Char) : List Char → Bool
  | [] => strStartsWith needle []
  | c :: rest => strStartsWith needle (c :: rest) || containsSub needle rest

/-- Whether any keyword of the list occurs as a substring of the (already
lowercased) input, modelling `any(k in raw_l for k in keys)`. -/
def containsAnyOf (keys : List String) (raw_l : List Char) : Bool :=
  keys.any (fun k => containsSub k.toList raw_l)

/-- Rock synonyms of move_map in mock_judge_response. -/
def rockSyns : List String := ["rock", "rok", "stone", "boulder", "fist"]

/-- Paper synonyms of move_map in mock_judge_response. -/
def paperSyns : List String := ["paper", "ppr", "pap", "sheet", "document"]

/-- Scissors synonyms of move_map in mock_judge_response. -/
def scissorsSyns : List String := ["scissors", "scissor", "sciz", "snip", "shears"]

/-- Bomb synonyms of move_map in mock_judge_response. -/
def bombSyns : List String := ["bomb", "boom", "nuke", "dynamite", "c4", "explosion"]

/-- The move_map dictionary, in Python insertion order. -/
def move_map : List (String × List String) :=
  [("rock", rockSyns), ("paper", paperSyns), ("scissors", scissorsSyns), ("bomb", bombSyns)]

/-- The refusal phrase list of mock_judge_response.  The third entry is
"i don&apos;t want" with a real apostrophe, assembled via `apostr`. -/
def refuses : List String :=
  ["pass", "skip", "i don" ++ apostr ++ "t want", "dont want", "not play", "nope"]

/-- First category of move_map one of whose keywords occurs in the lowered
input, modelling the nested keyword-matching loops. -/
def matchCategory (raw_l : List Char) : Option String :=
  (move_map.find? (fun p => containsAnyOf p.2 raw_l)).map Prod.fst

/-- The intent heuristics of mock_judge_response: keyword match in category
priority order, then the refusal check forcing the result to None. -/
def resolveIntent (raw : String) : Option String :=
  let raw_l := lowerStr raw.toList
  if containsAnyOf refuses raw_l then none else matchCategory raw_l

/-- The validation block of mock_judge_response, returning the pair of
status and reason strings. -/
def validate (move_understood : Option String) (player2_bomb_used : Bool) :
    String × String :=
  match move_understood with
  | none => ("UNCLEAR", "Could not determine move from input.")
  | some mv =>
    if mv == "bomb" && player2_bomb_used then
      ("INVALID", "Bomb already used by player 2.")
    else
      ("VALID", "Move recognized and constraints satisfied.")

/-- Python str() on an optional move: None prints as the text None. -/
def pyStr : Option String → String
  | none => "None"
  | some s => s

/-- The beats dictionary lookup beats.get(m): missing keys (including None
and bomb) give None. -/
def beatsGet : Option String → Option String
  | some "rock" => some "scissors"
  | some "scissors" => some "paper"
  | some "paper" => some "rock"
  | _ => none

/-- The game-logic block of mock_judge_response: round winner and
explanation, computed only when validation_status is VALID, otherwise left
at the initial None / placeholder values. -/
def game_logic_of (validation_status : String) (p1 p2 : Option String) :
    Option String × String :=
  if validation_status == "VALID" then
    if p1 == p2 then
      (some "draw", "Both players played " ++ pyStr p1 ++ ". It" ++ apostr ++ "s a draw.")
    else if p1 == some "bomb" && p2 == some "bomb" then
      (some "draw", "Both players used bomb. Draw.")
    else if p1 == some "bomb" then
      (some "player1", "Player1" ++ apostr ++ "s bomb beats player2" ++ apostr ++ "s move.")
    else if p2 == some "bomb" then
      (some "player2", "Player2" ++ apostr ++ "s bomb beats player1" ++ apostr ++ "s move.")
    else if beatsGet p1 == p2 then
      (some "player1", pyStr p1 ++ " beats " ++ pyStr p2 ++ ".")
    else if beatsGet p2 == p1 then
      (some "player2", pyStr p2 ++ " beats " ++ pyStr p1 ++ ".")
    else
      (some "draw", "No clear winner (unexpected input).")
  else
    (none, "No winner determined.")

/-- The state-update block of mock_judge_response: player 1 flag copied,
player 2 flag set when a valid bomb was played. -/
def state_update_of (validation_status : String) (p2 : Option String)
    (p1_bomb p2_bomb : Bool) : Bool × Bool :=
  (p1_bomb, if validation_status == "VALID" && p2 == some "bomb" then true else p2_bomb)

/-- The game_context dictionary built by play_round. -/
structure GameContext where
  round_number : Nat
  player1_move : Option String
  player2_move : Option String
  player1_bomb_used : Bool
  player2_bomb_used : Bool

structure IntentUnderstanding where
  move_understood : Option String
  reasoning : String

structure ValidationPart where
  status : String
  reason : String

structure GameLogicPart where
  player1_move : Option String
  player2_move : Option String
  round_winner : Option String
  round_explanation : String

structure BombsRemaining where
  player1 : String
  player2 : String

structure StateUpdatePart where
  player1_bomb_used : Bool
  player2_bomb_used : Bool
  bombs_remaining : BombsRemaining

structure FinalResultPart where
  move_accepted : Bool
  action : String
  player_message : String

/-- The JSON decision record returned by the judge. -/
structure DecisionRecord where
  round_number : Nat
  player2_raw_input : String
  intent_understanding : IntentUnderstanding
  validation : ValidationPart
  game_logic : GameLogicPart
  state_update : StateUpdatePart
  final_result : FinalResultPart

/-- The deterministic fallback judge mock_judge_response, translated
block by block from the source. -/
def mock_judge_response (ctx : GameContext) : DecisionRecord :=
  let raw := ctx.player2_move.getD ""
  let move_understood := resolveIntent raw
  let v := validate move_understood ctx.player2_bomb_used
  let p1 := ctx.player1_move
  let p2 := move_understood
  let gl := game_logic_of v.1 p1 p2
  let su := state_update_of v.1 p2 ctx.player1_bomb_used ctx.player2_bomb_used
  { round_number := ctx.round_number
    player2_raw_input := raw
    intent_understanding :=
      { move_understood := p2
        reasoning := "Matched keywords heuristically in mock mode." }
    validation := { status := v.1, reason := v.2 }
    game_logic :=
      { player1_move := p1
        player2_move := p2
        round_winner := gl.1
        round_explanation := gl.2 }
    state_update :=
      { player1_bomb_used := su.1
        player2_bomb_used := su.2
        bombs_remaining :=
          { player1 := if su.1 then "0" else "1"
            player2 := if su.2 then "0" else "1" } }
    final_result :=
      { move_accepted := v.1 == "VALID"
        action :=
          if v.1 == "VALID" then "PLAYED"
          else if v.1 == "INVALID" then "REJECTED" else "UNCLEAR_MOVE"
        player_message :=
          "(MOCK) " ++ (if v.1 == "VALID" then "Move accepted." else v.2) } }

/-- The mutable game state dictionary of the main loop. -/
structure GameState where
  round_number : Nat
  player1_bomb_used : Bool
  player2_bomb_used : Bool
  rounds : List DecisionRecord

/-- initialize_game from the source. -/
def initialize_game : GameState :=
  { round_number := 1
    player1_bomb_used := false
    player2_bomb_used := false
    rounds := [] }

/-- The game_context dictionary that play_round assembles from the game
state and the inputs of the round. -/
def round_context (gs : GameState) (player2_input : String)
    (player1_move : Option String) : GameContext :=
  { round_number := gs.round_number
    player1_move := player1_move
    player2_move := some player2_input
    player1_bomb_used := gs.player1_bomb_used
    player2_bomb_used := gs.player2_bomb_used }

/-- The state mutation at the end of play_round: commit the state_update
flags only when the move was accepted, then append the record to rounds. -/
def apply_decision (gs : GameState) (jd : DecisionRecord) : GameState :=
  let gs1 :=
    if jd.final_result.move_accepted then
      { gs with
        player1_bomb_used := jd.state_update.player1_bomb_used
        player2_bomb_used := jd.state_update.player2_bomb_used }
    else gs
  { gs1 with rounds := gs1.rounds ++ [jd] }

/-- play_round in mock mode (client is None): call the fallback judge on the
assembled context and commit its decision into the game state. -/
def play_round (gs : GameState) (player2_input : String)
    (player1_move : Option String) : DecisionRecord × GameState :=
  let jd := mock_judge_response (round_context gs player2_input player1_move)
  (jd, apply_decision gs jd)

/-- A sequence of fallback-mode rounds, folding play_round over a list of
raw-input and AI-move pairs. -/
def play_rounds (gs : GameState) (inputs : List (String × Option String)) :
    GameState :=
  inputs.foldl (fun g i => (play_round g i.1 i.2).2) gs

/-- One iteration of the three-counter tally loop of main. -/
def tallyStep (acc : Nat × Nat × Nat) (rd : DecisionRecord) : Nat × Nat × Nat :=
  if rd.game_logic.round_winner == some "player2" then
    (acc.1 + 1, acc.2.1, acc.2.2)
  else if rd.game_logic.round_winner == some "player1" then
    (acc.1, acc.2.1 + 1, acc.2.2)
  else
    (acc.1, acc.2.1, acc.2.2 + 1)

/-- The tally of user wins, bot wins and draws over a list of records,
as computed by the loop in main. -/
def tally (records : List DecisionRecord) : Nat × Nat × Nat :=
  records.foldl tallyStep (0, 0, 0)

/-- The final verdict string computed by main from the two win counters. -/
def verdict (user_wins bot_wins : Nat) : String :=
  if user_wins > bot_wins then "User wins"
  else if bot_wins > user_wins then "Bot wins"
  else "Draw"

/-- One pass of the main loop body after reading a non-empty input in mock
mode: play the round, advance round_number, and reset the whole game state
whenever the stored round count is a multiple of 3. -/
def main_step (gs : GameState) (player_input : String) (ai_move : String) :
    GameState :=
  let gs1 := (play_round gs player_input (some ai_move)).2
  let gs2 := { gs1 with round_number := gs1.round_number + 1 }
  if gs2.rounds.length % 3 == 0 then initialize_game else gs2

/-! Helper lemmas about the embedded functions. -/

lemma mock_status_eq (ctx : GameContext) :
    (mock_judge_response ctx).validation.status
      = (validate (resolveIntent (ctx.player2_move.getD "")) ctx.player2_bomb_used).1 := rfl

lemma game_logic_of_not_valid (st : String) (p1 p2 : Option String)
    (h : st ≠ "VALID") : game_logic_of st p1 p2 = (none, "No winner determined.") := by
  simp [game_logic_of, h]

lemma state_update_of_not_valid (st : String) (p2 : Option String)
    (a b : Bool) (h : st ≠ "VALID") : state_update_of st p2 a b = (a, b) := by
  simp [state_update_of, h]

lemma apply_decision_rounds (gs : GameState) (jd : DecisionRecord) :
    (apply_decision gs jd).rounds = gs.rounds ++ [jd] := by
  unfold apply_decision
  dsimp only
  split <;> rfl

lemma play_round_p1_flag (gs : GameState) (inp : String) (mv : Option String) :
    (play_round gs inp mv).2.player1_bomb_used = gs.player1_bomb_used := by
  show (apply_decision gs
      (mock_judge_response (round_context gs inp mv))).player1_bomb_used
    = gs.player1_bomb_used
  unfold apply_decision
  dsimp only
  split <;> rfl

lemma mock_p2_flag_mono (ctx : GameContext) (h : ctx.player2_bomb_used = true) :
    (mock_judge_response ctx).state_update.player2_bomb_used = true := by
  show (state_update_of
      (validate (resolveIntent (ctx.player2_move.getD "")) ctx.player2_bomb_used).1
      (resolveIntent (ctx.player2_move.getD ""))
      ctx.player1_bomb_used ctx.player2_bomb_used).2 = true
  rw [h]
  simp [state_update_of]

lemma play_round_p2_mono (gs : GameState) (inp : String) (mv : Option String)
    (h : gs.player2_bomb_used = true) :
    (play_round gs inp mv).2.player2_bomb_used = true := by
  show (apply_decision gs
      (mock_judge_response (round_context gs inp mv))).player2_bomb_used = true
  unfold apply_decision
  dsimp only
  split
  · exact mock_p2_flag_mono (round_context gs inp mv) h
  · exact h

/-- Move categories of the game, used to state domain restrictions. -/
def MoveCats : List String := ["rock", "paper", "scissors", "bomb"]

/-- The outcome rules exactly as the specification words them, rule by rule
in precedence order, used to compare the game-logic block against them. -/
def outcomeSpec (p1 p2 : String) : String :=
  if p1 = p2 then "draw"
  else if p1 = "bomb" then "player1"
  else if p2 = "bomb" then "player2"
  else if (p1 = "rock" ∧ p2 = "scissors") ∨ (p1 = "scissors" ∧ p2 = "paper") ∨
          (p1 = "paper" ∧ p2 = "rock") then "player1"
  else "player2"

/-! Theorems settling the claims. -/

/-- Claim C1 as stated is false at the input "rock bomb": it contains the
bomb synonym "bomb" and no refusal phrase, yet the intent resolver returns
rock, because the category priority order rock, paper, scissors, bomb lets
an earlier category preempt the bomb match. -/
theorem C1_counterexample :
    containsAnyOf bombSyns (lowerStr ("rock bomb").toList) = true ∧
    containsAnyOf refuses (lowerStr ("rock bomb").toList) = false ∧
    resolveIntent "rock bomb" = some "rock" ∧
    resolveIntent "rock bomb" ≠ some "bomb" := by decide

/-- Claim C1, amended: for every raw input that contains a bomb synonym, no
synonym of rock, paper or scissors, and no refusal phrase, the intent
resolver of mock_judge_response returns the category bomb. -/
theorem C1_amended_bomb_intent (raw : String)
    (hb : containsAnyOf bombSyns (lowerStr raw.toList) = true)
    (hr : containsAnyOf rockSyns (lowerStr raw.toList) = false)
    (hp : containsAnyOf paperSyns (lowerStr raw.toList) = false)
    (hs : containsAnyOf scissorsSyns (lowerStr raw.toList) = false)
    (hn : containsAnyOf refuses (lowerStr raw.toList) = false) :
    resolveIntent raw = some "bomb" := by
  unfold resolveIntent matchCategory move_map
  simp only [String.toList] at hb hr hp hs hn
  simp [List.find?, hn, hr, hp, hs, hb]

theorem C1_witness :
    containsAnyOf bombSyns (lowerStr ("bomb").toList) = true ∧
    resolveIntent "bomb" = some "bomb" :=
  ⟨by decide,
   C1_amended_bomb_intent "bomb" (by decide) (by decide) (by decide) (by decide) (by decide)⟩

/-- Claim C3: the fallback judge copies the caller-supplied player 1
bomb-used flag into state_update unchanged, for every round context,
including contexts where player1_move is bomb in a VALID round; it never
infers player 1 bomb consumption from the move. -/
theorem C3_p1_flag_unchanged (ctx : GameContext) :
    (mock_judge_response ctx).state_update.player1_bomb_used
      = ctx.player1_bomb_used := rfl

/-- Claim C7: for every raw input containing any refusal phrase, the intent
resolver returns none, even if the input also contains a move synonym. -/
theorem C7_refusal_overrides (raw : String)
    (h : containsAnyOf refuses (lowerStr raw.toList) = true) :
    resolveIntent raw = none := by
  unfold resolveIntent
  simp only [String.toList] at h
  simp [h]

theorem C7_witness :
    containsAnyOf refuses (lowerStr ("pass rock").toList) = true ∧
    resolveIntent "pass rock" = none :=
  ⟨by decide, C7_refusal_overrides "pass rock" (by decide)⟩

/-- Claim C8: the move validator produces exactly one of the three statuses
and they are mutually exclusive and exhaustive: a null resolved move yields
UNCLEAR, a bomb with the bomb-used flag set yields INVALID, and every other
combination yields VALID. -/
theorem C8_validator_trichotomy (m : Option String) (b : Bool) :
    ((validate m b).1 = "UNCLEAR" ∨ (validate m b).1 = "INVALID" ∨
      (validate m b).1 = "VALID") ∧
    ((validate m b).1 = "UNCLEAR" ↔ m = none) ∧
    ((validate m b).1 = "INVALID" ↔ m = some "bomb" ∧ b = true) ∧
    ((validate m b).1 = "VALID" ↔ m ≠ none ∧ ¬(m = some "bomb" ∧ b = true)) := by
  rcases m with _ | s
  · simp [validate]
  · by_cases hs : s = "bomb"
    · subst hs; cases b <;> simp [validate]
    · cases b <;> simp [validate, hs]

/-- Claim C2 as stated is false: on a round whose validation status is
INVALID, the fallback judge still populates the game_logic fields
player1_move, player2_move and round_explanation with non-null content;
only round_winner is left null. -/
theorem C2_counterexample :
    (mock_judge_response ⟨1, some "rock", some "bomb", false, true⟩).validation.status
      = "INVALID" ∧
    (mock_judge_response ⟨1, some "rock", some "bomb", false, true⟩).game_logic.player2_move
      = some "bomb" ∧
    (mock_judge_response ⟨1, some "rock", some "bomb", false, true⟩).game_logic.player1_move
      = some "rock" ∧
    (mock_judge_response ⟨1, some "rock", some "bomb", false, true⟩).game_logic.round_explanation
      = "No winner determined." := by
  decide

/-- Claim C2, amended: for every round whose validation status is not VALID,
the game_logic block carries no outcome content: round_winner is null and
round_explanation is the fixed placeholder; the player1_move and
player2_move fields are still populated, echoing the caller move and the
resolved intent. -/
theorem C2_amended_game_logic (ctx : GameContext)
    (h : (mock_judge_response ctx).validation.status ≠ "VALID") :
    (mock_judge_response ctx).game_logic.round_winner = none ∧
    (mock_judge_response ctx).game_logic.round_explanation = "No winner determined." ∧
    (mock_judge_response ctx).game_logic.player1_move = ctx.player1_move ∧
    (mock_judge_response ctx).game_logic.player2_move
      = resolveIntent (ctx.player2_move.getD "") := by
  have h2 : (validate (resolveIntent (ctx.player2_move.getD ""))
      ctx.player2_bomb_used).1 ≠ "VALID" := h
  have hgl := game_logic_of_not_valid
    ((validate (resolveIntent (ctx.player2_move.getD "")) ctx.player2_bomb_used).1)
    ctx.player1_move (resolveIntent (ctx.player2_move.getD "")) h2
  exact ⟨congrArg Prod.fst hgl, congrArg Prod.snd hgl, rfl, rfl⟩

theorem C2_witness :
    (mock_judge_response ⟨2, some "paper", some "nuke em", false, true⟩).validation.status
      ≠ "VALID" ∧
    (mock_judge_response ⟨2, some "paper", some "nuke em", false, true⟩).game_logic.round_winner
      = none :=
  ⟨by decide,
   (C2_amended_game_logic ⟨2, some "paper", some "nuke em", false, true⟩ (by decide)).1⟩

/-- Claim C4: on the four-category domain the game-logic block computes the
specified winner (draw on equal moves including bomb versus bomb, bomb
dominance, the cyclic relation otherwise), and the defensive rule-5
unexpected-input draw branch is never the deciding rule. -/
theorem C4_outcome_resolver (p1 p2 : String)
    (h1 : p1 ∈ MoveCats) (h2 : p2 ∈ MoveCats) :
    (game_logic_of "VALID" (some p1) (some p2)).1 = some (outcomeSpec p1 p2) ∧
    (game_logic_of "VALID" (some p1) (some p2)).2
      ≠ "No clear winner (unexpected input)." := by
  simp only [MoveCats, List.mem_cons, List.not_mem_nil, or_false] at h1 h2
  rcases h1 with h1 | h1 | h1 | h1 <;> rcases h2 with h2 | h2 | h2 | h2 <;>
    subst h1 <;> subst h2 <;> decide

theorem C4_witness :
    "rock" ∈ MoveCats ∧ "scissors" ∈ MoveCats ∧
    (game_logic_of "VALID" (some "rock") (some "scissors")).1
      = some (outcomeSpec "rock" "scissors") ∧
    (game_logic_of "VALID" (some "rock") (some "scissors")).2
      ≠ "No clear winner (unexpected input)." :=
  ⟨by decide, by decide,
   (C4_outcome_resolver "rock" "scissors" (by decide) (by decide)).1,
   (C4_outcome_resolver "rock" "scissors" (by decide) (by decide)).2⟩

/-- Claim C5: when the validation status of a round is not VALID, the
fallback judge reports the prior bomb flags unchanged in state_update, and
play_round leaves both bomb flags of the game state untouched. -/
theorem C5_no_commit_when_not_valid (gs : GameState) (inp : String)
    (mv : Option String)
    (h : (play_round gs inp mv).1.validation.status ≠ "VALID") :
    (play_round gs inp mv).1.state_update.player1_bomb_used = gs.player1_bomb_used ∧
    (play_round gs inp mv).1.state_update.player2_bomb_used = gs.player2_bomb_used ∧
    (play_round gs inp mv).2.player1_bomb_used = gs.player1_bomb_used ∧
    (play_round gs inp mv).2.player2_bomb_used = gs.player2_bomb_used := by
  have h2 : (validate (resolveIntent inp) gs.player2_bomb_used).1 ≠ "VALID" := h
  have hsu := state_update_of_not_valid
    ((validate (resolveIntent inp) gs.player2_bomb_used).1)
    (resolveIntent inp) gs.player1_bomb_used gs.player2_bomb_used h2
  have hacc : (mock_judge_response (round_context gs inp mv)).final_result.move_accepted
      = false := by
    show ((validate (resolveIntent inp) gs.player2_bomb_used).1 == "VALID") = false
    exact beq_eq_false_iff_ne.mpr h2
  refine ⟨congrArg Prod.fst hsu, congrArg Prod.snd hsu, ?_, ?_⟩
  · show (apply_decision gs
        (mock_judge_response (round_context gs inp mv))).player1_bomb_used
      = gs.player1_bomb_used
    unfold apply_decision
    dsimp only
    rw [hacc]
    rfl
  · show (apply_decision gs
        (mock_judge_response (round_context gs inp mv))).player2_bomb_used
      = gs.player2_bomb_used
    unfold apply_decision
    dsimp only
    rw [hacc]
    rfl

theorem C5_witness :
    (play_round initialize_game "xyzzy" (some "rock")).1.validation.status ≠ "VALID" ∧
    (play_round initialize_game "xyzzy" (some "rock")).2.player1_bomb_used
      = initialize_game.player1_bomb_used ∧
    (play_round initialize_game "xyzzy" (some "rock")).2.player2_bomb_used
      = initialize_game.player2_bomb_used :=
  ⟨by decide,
   (C5_no_commit_when_not_valid initialize_game "xyzzy" (some "rock") (by decide)).2.2.1,
   (C5_no_commit_when_not_valid initialize_game "xyzzy" (some "rock") (by decide)).2.2.2⟩

/-- Claim C6: within a match, the bomb-used flags of the game state are
monotone under fallback-mode rounds: once a flag is true it stays true
across any sequence of play_round calls. -/
theorem C6_bomb_flag_monotone (gs : GameState)
    (inputs : List (String × Option String)) :
    (gs.player1_bomb_used = true →
      (play_rounds gs inputs).player1_bomb_used = true) ∧
    (gs.player2_bomb_used = true →
      (play_rounds gs inputs).player2_bomb_used = true) := by
  induction inputs generalizing gs with
  | nil => exact ⟨fun h => h, fun h => h⟩
  | cons i rest ih =>
    have hstep : play_rounds gs (i :: rest)
        = play_rounds ((play_round gs i.1 i.2).2) rest := rfl
    rw [hstep]
    constructor
    · intro h
      exact (ih _).1 (by rw [play_round_p1_flag]; exact h)
    · intro h
      exact (ih _).2 (play_round_p2_mono _ _ _ h)

theorem C6_witness :
    (play_rounds ⟨1, true, true, []⟩ [("rock", some "paper")]).player1_bomb_used
      = true ∧
    (play_rounds ⟨1, true, true, []⟩ [("rock", some "paper")]).player2_bomb_used
      = true :=
  ⟨(C6_bomb_flag_monotone ⟨1, true, true, []⟩ [("rock", some "paper")]).1 rfl,
   (C6_bomb_flag_monotone ⟨1, true, true, []⟩ [("rock", some "paper")]).2 rfl⟩

lemma tally_foldl (records : List DecisionRecord) (acc : Nat × Nat × Nat) :
    records.foldl tallyStep acc =
      (acc.1 + records.countP (fun rd => rd.game_logic.round_winner == some "player2"),
       acc.2.1 + records.countP (fun rd => rd.game_logic.round_winner == some "player1"),
       acc.2.2 + records.countP (fun rd =>
         !(rd.game_logic.round_winner == some "player2") &&
         !(rd.game_logic.round_winner == some "player1"))) := by
  induction records generalizing acc with
  | nil => simp
  | cons rd rest ih =>
    have hcons : (rd :: rest).foldl tallyStep acc
        = rest.foldl tallyStep (tallyStep acc rd) := rfl
    rw [hcons, ih]
    by_cases h2 : (rd.game_logic.round_winner == some "player2") = true
    · have h1 : (rd.game_logic.round_winner == some "player1") = false := by
        rw [beq_iff_eq] at h2
        rw [h2]
        decide
      simp [tallyStep, h2, h1, List.countP_cons]
      omega
    · by_cases h1 : (rd.game_logic.round_winner == some "player1") = true
      · simp [tallyStep, h2, h1, List.countP_cons]
        omega
      · simp [tallyStep, h2, h1, List.countP_cons]
        omega

lemma tally_eq_counts (records : List DecisionRecord) :
    tally records =
      (records.countP (fun rd => rd.game_logic.round_winner == some "player2"),
       records.countP (fun rd => rd.game_logic.round_winner == some "player1"),
       records.countP (fun rd =>
         !(rd.game_logic.round_winner == some "player2") &&
         !(rd.game_logic.round_winner == some "player1"))) := by
  have h := tally_foldl records (0, 0, 0)
  simpa [tally] using h

lemma verdict_cases (u b : Nat) :
    (verdict u b = "User wins" ↔ b < u) ∧
    (verdict u b = "Bot wins" ↔ u < b) ∧
    (verdict u b = "Draw" ↔ u = b) := by
  unfold verdict
  by_cases h1 : b < u
  · have h2 : ¬ (u < b) := by omega
    simp [gt_iff_lt, h1, h2]
    omega
  · by_cases h2 : u < b
    · simp [gt_iff_lt, h1, h2]
      omega
    · simp [gt_iff_lt, h1, h2]
      omega

/-- Claim C9: the match tally counts round_winner player2 as a user win,
player1 as a bot win, and anything else (including null winners of rejected
or unclear rounds) as a draw, and the verdict is User wins exactly on a
strict majority for the user, Bot wins exactly on a strict majority for the
bot, and Draw exactly on equal counts. -/
theorem C9_tally_and_verdict (records : List DecisionRecord) (u b : Nat) :
    tally records =
      (records.countP (fun rd => rd.game_logic.round_winner == some "player2"),
       records.countP (fun rd => rd.game_logic.round_winner == some "player1"),
       records.countP (fun rd =>
         !(rd.game_logic.round_winner == some "player2") &&
         !(rd.game_logic.round_winner == some "player1"))) ∧
    (verdict u b = "User wins" ↔ b < u) ∧
    (verdict u b = "Bot wins" ↔ u < b) ∧
    (verdict u b = "Draw" ↔ u = b) :=
  ⟨tally_eq_counts records, verdict_cases u b⟩

lemma play_round_rounds (gs : GameState) (inp : String) (mv : Option String) :
    (play_round gs inp mv).2.rounds = gs.rounds ++ [(play_round gs inp mv).1] :=
  apply_decision_rounds gs (mock_judge_response (round_context gs inp mv))

/-- Claim C10: whenever playing a round makes the stored round history reach
a multiple of 3, the main-loop step replaces the game state by a fresh one
with both bomb flags false, round number 1 and an empty history, regardless
of the prior flags and history. -/
theorem C10_match_reset (gs : GameState) (inp mv : String)
    (h : (gs.rounds.length + 1) % 3 = 0) :
    main_step gs inp mv = initialize_game ∧
    (main_step gs inp mv).player1_bomb_used = false ∧
    (main_step gs inp mv).player2_bomb_used = false ∧
    (main_step gs inp mv).round_number = 1 ∧
    (main_step gs inp mv).rounds = [] := by
  have hmain : main_step gs inp mv = initialize_game := by
    simp [main_step, play_round_rounds, h]
  refine ⟨hmain, ?_, ?_, ?_, ?_⟩ <;> rw [hmain] <;> rfl

/-- Sample record, used only to build a concrete game state. -/
def sampleRecord : DecisionRecord :=
  mock_judge_response ⟨1, some "rock", some "paper", false, false⟩

theorem C10_witness :
    ((⟨5, true, true, [sampleRecord, sampleRecord]⟩ : GameState).rounds.length + 1) % 3
      = 0 ∧
    main_step ⟨5, true, true, [sampleRecord, sampleRecord]⟩ "hello" "rock"
      = initialize_game :=
  ⟨by rfl,
   (C10_match_reset ⟨5, true, true, [sampleRecord, sampleRecord]⟩ "hello" "rock"
     (by rfl)).1⟩

end RPS
